import Mathlib

/-!
Shallow embedding of the Devialet IP Control integration
(`custom_components/devialet`): the HTTP client's response handling
(`devialet_api.py`), the snapshot coordinator (`media_player.py`,
`DevialetDataUpdateCoordinator._async_update_data`), and the pure
projections of the media-player entity (`volume_level`,
`is_volume_muted`, `source_list`, `sound_mode_list`,
`supported_features`, `async_select_sound_mode`), together with
theorems settling the specification claims about them.

Decoded JSON values are modelled by `JVal`; a decoded response body is
modelled as a JSON object (`Obj`), the shape every endpoint of this
device API returns.  Python `None` is `Option.none`; a Python `dict` is
an insertion-ordered association list.
-/

namespace Devialet

/-- A decoded JSON value (the result of `response.json()`). -/
inductive JVal where
  | jnull : JVal
  | jbool : Bool → JVal
  | jnum : Int → JVal
  | jstr : String → JVal
  | jobj : List (String × JVal) → JVal
  | jarr : List JVal → JVal

/-- A decoded JSON object: an insertion-ordered association list, the
model of a Python `dict`. -/
abbrev Obj := List (String × JVal)

/-- `d.get(k)` on a Python dict: the value at the first matching key,
or `None`. -/
def getKey (o : Obj) (k : String) : Option JVal :=
  (o.find? (fun kv => kv.1 == k)).map (fun kv => kv.2)

/-- `k in d` on a Python dict. -/
def hasKey (o : Obj) (k : String) : Bool :=
  o.any (fun kv => kv.1 == k)

/-! ## Device API Client (`devialet_api.py`) -/

/-- An HTTP response as seen by `DevialetAPI._handle_response`:
its status code, and the outcome of `response.json()` (`none` models a
`ValueError`, i.e. a body that fails to parse as JSON). -/
structure HttpResponse where
  status_code : Nat
  jsonBody : Option Obj

/-- The outcome of `requests.get`/`requests.post`: either a
`requests.RequestException` (timeout, connection error, ...) or a
response. -/
inductive RequestOutcome where
  | exn : RequestOutcome
  | ok : HttpResponse → RequestOutcome

/-- `DevialetAPI._handle_response` (devialet_api.py lines 45-66):
non-200 status → `None`; body that fails to parse → `None`; decoded
body containing an `"error"` key → `None`; otherwise the decoded
mapping. -/
def handle_response (response : HttpResponse) : Option Obj :=
  if response.status_code ≠ 200 then none
  else
    match response.jsonBody with
    | none => none
    | some data => if hasKey data "error" then none else some data

/-- `DevialetAPI.get` (devialet_api.py lines 68-76): a transport
exception is caught and yields `None`; otherwise the response is passed
to `_handle_response`.  The function is total: no exception propagates
to the caller. -/
def DevialetAPI.get (outcome : RequestOutcome) : Option Obj :=
  match outcome with
  | .exn => none
  | .ok response => handle_response response

/-- `DevialetAPI.post` (devialet_api.py lines 78-94): identical
response handling to `get` (the request body does not influence the
result classification). -/
def DevialetAPI.post (outcome : RequestOutcome) : Option Obj :=
  match outcome with
  | .exn => none
  | .ok response => handle_response response

/-! ## Snapshot Coordinator (`media_player.py` lines 128-159) -/

/-- The results of the seven endpoint calls a fetch cycle makes, each
one the `Option Obj` returned by `DevialetAPI.get` for that endpoint
(the client returns `none` rather than raising, so each field is
failure-isolated from the others). -/
structure ApiResults where
  device_info : Option Obj
  system_info : Option Obj
  playback : Option Obj
  volume : Option Obj
  sources : Option Obj
  night_mode : Option Obj
  equalizer : Option Obj

/-- The seven snapshot keys, in the insertion order of
`DevialetDataUpdateCoordinator._async_update_data`. -/
def SNAPSHOT_KEYS : List String :=
  ["device_info", "system_info", "playback", "volume", "sources",
   "night_mode", "equalizer"]

/-- `DevialetDataUpdateCoordinator._async_update_data` (media_player.py
lines 128-159): assembles the seven per-endpoint results into one dict,
binding every key whether the result is present or absent. -/
def async_update_data (api : ApiResults) : List (String × Option Obj) :=
  [("device_info", api.device_info),
   ("system_info", api.system_info),
   ("playback", api.playback),
   ("volume", api.volume),
   ("sources", api.sources),
   ("night_mode", api.night_mode),
   ("equalizer", api.equalizer)]

/-- The seven endpoint results as a plain list, in snapshot order. -/
def ApiResults.fields (api : ApiResults) : List (Option Obj) :=
  [api.device_info, api.system_info, api.playback, api.volume,
   api.sources, api.night_mode, api.equalizer]

/-! ## Volume (`devialet_api.py` lines 115-118, `media_player.py`
lines 227-238) -/

/-- The endpoint `API_VOLUME` from `const.py`. -/
def API_VOLUME : String :=
  "/ipcontrol/v1/systems/current/sources/current/soundControl/volume"

/-- `DevialetAPI.set_volume` (devialet_api.py lines 115-118): clamps
the integer volume to [0, 100] and posts `{"volume": clamped}` to
`API_VOLUME`.  Modelled as the endpoint and body of the POST it
issues. -/
def set_volume (volume : Int) : String × Obj :=
  (API_VOLUME, [("volume", JVal.jnum (max 0 (min 100 volume)))])

/-- `DevialetMediaPlayer.volume_level` (media_player.py lines
227-238): `None` when the coordinator has no data, when the snapshot's
`volume` field is absent or an empty mapping (both falsy in Python),
or when the mapping lacks a `volume` key; otherwise `volume / 100.0`.
The fraction is modelled exactly as a rational.  (A non-numeric
`volume` value would raise a `TypeError` in the source; it is modelled
as `none` and is not relied on by any theorem.) -/
def volume_level (data : Option ApiResults) : Option ℚ :=
  match data with
  | none => none
  | some d =>
    match d.volume with
    | none => none
    | some volume_data =>
      if volume_data.isEmpty then none
      else
        match getKey volume_data "volume" with
        | some (.jnum v) => some ((v : ℚ) / 100)
        | _ => none

/-! ## Mute (`media_player.py` lines 240-249) -/

/-- `DevialetMediaPlayer.is_volume_muted` (media_player.py lines
240-249): `None` when the coordinator has no data or the snapshot's
`playback` field is absent or empty (falsy); otherwise the boolean
`playback.get("muteState") == "muted"` (a missing key gives Python
`None`, which compares unequal to `"muted"`, hence `false`). -/
def is_volume_muted (data : Option ApiResults) : Option Bool :=
  match data with
  | none => none
  | some d =>
    match d.playback with
    | none => none
    | some playback =>
      if playback.isEmpty then none
      else
        some (match getKey playback "muteState" with
              | some (.jstr s) => s == "muted"
              | _ => false)

/-! ## Feature flags (`media_player.py` lines 404-412, 441-459) -/

/-- Python string `<`: lexicographic comparison of code points, a
shorter string that is a proper prefix comparing smaller. -/
def pyStrLt : List Char → List Char → Bool
  | [], [] => false
  | [], _ :: _ => true
  | _ :: _, [] => false
  | a :: as, b :: bs =>
    if a < b then true else if b < a then false else pyStrLt as bs

/-- Python string `>=` as used by `firmware_version >= "2.16.0"`. -/
def pyStrGe (s t : String) : Bool := !(pyStrLt s.toList t.toList)

/-- `device_info.get("release", {})` (media_player.py lines 411, 455):
the nested release mapping, defaulting to an empty mapping when the key
is missing.  (A present non-object value would raise in the source; it
is modelled as the empty mapping and not relied on by any theorem.) -/
def release_obj (device_info : Obj) : Obj :=
  match getKey device_info "release" with
  | some (.jobj fields) => fields
  | _ => []

/-- `.get("canonicalVersion", "0.0.0")` on the release mapping
(media_player.py lines 411, 455): the firmware version string,
defaulting to `"0.0.0"` when missing. -/
def firmware_version_string (device_info : Obj) : String :=
  match getKey (release_obj device_info) "canonicalVersion" with
  | some (.jstr s) => s
  | _ => "0.0.0"

/-- The comparison `firmware_version >= "2.16.0"` shared by
`DevialetMediaPlayer.supported_features` (media_player.py lines
452-457) and `extra_state_attributes` (lines 408-412). -/
def reboot_supported (device_info : Obj) : Bool :=
  pyStrGe (firmware_version_string device_info) "2.16.0"

/-- The reboot-capability decision of
`DevialetMediaPlayer.supported_features` (media_player.py lines
452-457): the `SUPPORT_REBOOT` bit is OR-ed in exactly when the
coordinator has data, its `device_info` field is truthy, and the
firmware comparison holds. -/
def supported_features_reboot (data : Option ApiResults) : Bool :=
  match data with
  | none => false
  | some d =>
    match d.device_info with
    | none => false
    | some device_info =>
      if device_info.isEmpty then false else reboot_supported device_info

/-- Modelled from the spec (design-notes contrast only; not part of the
source): numeric dot-separated version comparison, to witness that the
source's comparison is not a semantic-version comparison.  Splits on
`'.'` and compares the numeric components lexicographically. -/
def specVersionSplit (acc : List Char) : List Char → List (List Char)
  | [] => [acc.reverse]
  | c :: cs =>
    if c = '.' then acc.reverse :: specVersionSplit [] cs
    else specVersionSplit (c :: acc) cs

/-- Digits of one version component read as a number. -/
def specParseNat (acc : Nat) : List Char → Nat
  | [] => acc
  | c :: cs => specParseNat (acc * 10 + (c.toNat - 48)) cs

/-- The numeric components of a version string. -/
def specVersionParts (s : String) : List Nat :=
  (specVersionSplit [] s.data).map (specParseNat 0)

/-- Lexicographic `<` on numeric component lists. -/
def specNatListLt : List Nat → List Nat → Bool
  | [], [] => false
  | [], _ :: _ => true
  | _ :: _, [] => false
  | a :: as, b :: bs =>
    if a < b then true else if b < a then false else specNatListLt as bs

/-- Semantic-version `>=`. -/
def specSemverGe (s t : String) : Bool :=
  !(specNatListLt (specVersionParts s) (specVersionParts t))

/-- A device-info payload reporting firmware `"2.9.0"`. -/
def deviceInfo29 : Obj :=
  [("release", JVal.jobj [("canonicalVersion", JVal.jstr "2.9.0")])]

/-- A snapshot whose device info reports firmware `"2.9.0"`. -/
def apiWith29 : ApiResults :=
  ⟨some deviceInfo29, none, none, none, none, none, none⟩

/-- A snapshot whose volume endpoint reported `{"volume": 150}`. -/
def api150 : ApiResults :=
  ⟨none, none, none, some [("volume", JVal.jnum 150)], none, none, none⟩

/-- A snapshot whose volume endpoint reported `{"volume": 57}`. -/
def api57 : ApiResults :=
  ⟨none, none, none, some [("volume", JVal.jnum 57)], none, none, none⟩


/-! ## Night mode availability and sound modes (`media_player.py`
lines 56-78, 441-459, 481-493) -/

/-- `SOUND_MODES` (media_player.py lines 57-61): the three EQ preset
internal names. -/
def SOUND_MODES : List String := ["flat", "voice", "custom"]

/-- `SOUND_MODE_MAPPING` (media_player.py lines 64-69), in insertion
order. -/
def SOUND_MODE_MAPPING : List (String × String) :=
  [("flat", "Flat"), ("voice", "Voice"), ("custom", "Custom"),
   ("night_mode", "Night Mode")]

/-- `DevialetMediaPlayer._format_sound_mode` (media_player.py lines
437-439): table lookup with the raw mode as default. -/
def format_sound_mode (mode : String) : String :=
  ((SOUND_MODE_MAPPING.find? (fun kv => kv.1 == mode)).map
    (fun kv => kv.2)).getD mode

/-- `"nightMode" in system_info["availableFeatures"]` (media_player.py
line 449): Python membership on the feature container — element
membership for a list, key membership for a dict.  (Other value shapes
would be membership on a non-container and are not relied on by any
theorem.) -/
def jvalHasNightMode : JVal → Bool
  | .jarr l => l.any (fun v => match v with
      | .jstr s => s == "nightMode"
      | _ => false)
  | .jobj fields => fields.any (fun kv => kv.1 == "nightMode")
  | _ => false

/-- Whether a snapshot's `system_info` is truthy, has an
`availableFeatures` key, and that container holds night-mode support —
the condition guarding the flag assignment in
`DevialetMediaPlayer.supported_features` (media_player.py lines
447-450). -/
def snapshot_shows_night_mode (data : Option ApiResults) : Bool :=
  match data with
  | none => false
  | some d =>
    match d.system_info with
    | none => false
    | some system_info =>
      if system_info.isEmpty then false
      else
        match getKey system_info "availableFeatures" with
        | some v => jvalHasNightMode v
        | none => false

/-- The update of `self._night_mode_available` performed when
`supported_features` observes a snapshot (media_player.py lines
447-450): the flag is assigned `True` when the snapshot shows the
feature and is otherwise left at its previous value — the source has
no assignment back to `False`. -/
def update_night_mode_available (prev : Bool)
    (data : Option ApiResults) : Bool :=
  if snapshot_shows_night_mode data then true else prev

/-- `DevialetMediaPlayer.sound_mode_list` (media_player.py lines
481-493): `None` without coordinator data; otherwise the three
formatted EQ preset labels, with `"Night Mode"` appended exactly when
the availability flag holds. -/
def sound_mode_list (data : Option ApiResults)
    (night_mode_available : Bool) : Option (List String) :=
  match data with
  | none => none
  | some _ =>
    some ((SOUND_MODES.map format_sound_mode)
      ++ (if night_mode_available then ["Night Mode"] else []))

/-- A snapshot whose system info lists night-mode support. -/
def apiNightModeOn : ApiResults :=
  ⟨none, some [("availableFeatures", JVal.jarr [JVal.jstr "nightMode"])],
   none, none, none, none, none⟩

/-- A snapshot whose system info lists no available features. -/
def apiPlain : ApiResults :=
  ⟨none, some [("availableFeatures", JVal.jarr [])],
   none, none, none, none, none⟩

/-! ## Command dispatch (`media_player.py` lines 338-395, 495-526) -/

/-- One invocation of a `DevialetAPI` command method (each of which
issues exactly one POST). -/
inductive ApiCall where
  | setNightMode : Bool → ApiCall
  | setEqPreset : String → ApiCall
  | setVolume : Int → ApiCall
  | volumeUp : ApiCall
  | volumeDown : ApiCall
  | play : ApiCall
  | pause : ApiCall
  | mute : ApiCall
  | unmute : ApiCall
  | nextTrack : ApiCall
  | previousTrack : ApiCall
  | playSource : String → ApiCall
  deriving DecidableEq

/-- An observable step of a media-player action: a client API call or
a coordinator refresh request (`async_request_refresh`). -/
inductive Event where
  | api : ApiCall → Event
  | refresh : Event
  deriving DecidableEq

/-- The device API calls an action issued, in order. -/
def deviceCalls (events : List Event) : List ApiCall :=
  events.filterMap (fun e => match e with
    | .api c => some c
    | .refresh => none)

/-- `DevialetMediaPlayer.async_select_sound_mode` (media_player.py
lines 495-526) as the ordered list of steps it performs: nothing
without coordinator data; the night-mode-on call alone (early return,
no refresh) when night mode is available and the label is
`"Night Mode"`; otherwise, for a formatted EQ preset label,
night-mode-off (only when night mode is available) followed by the
preset command, and for an unrecognized label no call at all — in both
of the latter cases followed by a refresh request. -/
def async_select_sound_mode (hasData night_mode_available : Bool)
    (sound_mode : String) : List Event :=
  if !hasData then []
  else if night_mode_available && sound_mode == "Night Mode" then
    [.api (.setNightMode true)]
  else
    (if (SOUND_MODES.map format_sound_mode).contains sound_mode then
      match SOUND_MODE_MAPPING.find? (fun kv => kv.2 == sound_mode) with
      | some kv =>
        (if night_mode_available then [Event.api (.setNightMode false)]
         else [])
          ++ [Event.api (.setEqPreset kv.1)]
      | none => []
    else [])
    ++ [Event.refresh]

/-- A user/command action of the media player (media_player.py lines
338-395, 495-526).  `select_source` carries whether the label was
found in `self._source_mapping` and the mapped source id.
(`async_turn_on`, the reboot action, is not modelled: it invokes
`self.api.reboot_system`, a method the client does not define — see
the power-off/reboot dispatch theorem.) -/
inductive Action where
  | select_source : Bool → String → Action
  | volume_up : Action
  | volume_down : Action
  | set_volume_level : ℚ → Action
  | mute_volume : Bool → Action
  | media_play : Action
  | media_pause : Action
  | media_previous_track : Action
  | media_next_track : Action
  | media_stop : Action
  | select_sound_mode : Bool → Bool → String → Action

/-- Python `int()` truncation toward zero, as in `int(volume * 100)`
(media_player.py line 360). -/
def pyInt (q : ℚ) : Int := if 0 ≤ q then ⌊q⌋ else ⌈q⌉

/-- The ordered steps each action performs (media_player.py lines
338-395, 495-526): every handler issues its API call(s) and then
awaits `self.coordinator.async_request_refresh()` — except the paths
inside `async_select_sound_mode` and the unknown-source early return
of `async_select_source` (line 342). -/
def run_action : Action → List Event
  | .select_source known source_id =>
    if known then [.api (.playSource source_id), .refresh] else []
  | .volume_up => [.api .volumeUp, .refresh]
  | .volume_down => [.api .volumeDown, .refresh]
  | .set_volume_level volume =>
    [.api (.setVolume (pyInt (volume * 100))), .refresh]
  | .mute_volume m => [.api (if m then .mute else .unmute), .refresh]
  | .media_play => [.api .play, .refresh]
  | .media_pause => [.api .pause, .refresh]
  | .media_previous_track => [.api .previousTrack, .refresh]
  | .media_next_track => [.api .nextTrack, .refresh]
  | .media_stop => [.api .pause, .refresh]
  | .select_sound_mode hasData night_mode_available sound_mode =>
    async_select_sound_mode hasData night_mode_available sound_mode

/-- Whether an action is the night-mode sound-mode selection with data
present and night mode available — the one command-issuing path that
returns before requesting a refresh. -/
def is_night_mode_selection : Action → Bool
  | .select_sound_mode hasData night_mode_available sound_mode =>
    hasData && night_mode_available && (sound_mode == "Night Mode")
  | _ => false

/-! ## Power off and reboot dispatch (`__init__.py` lines 136-140,
212-216, `const.py`, `devialet_api.py`) -/

/-- The names of the methods the `DevialetAPI` class defines
(devialet_api.py lines 31-193). -/
def DevialetAPI.methods : List String :=
  ["__init__", "_get_url", "_handle_response", "get", "post",
   "get_device_info", "get_system_info", "get_firmware_version",
   "get_volume", "set_volume", "volume_up", "volume_down", "play",
   "pause", "mute", "unmute", "next_track", "previous_track",
   "get_sources", "get_current_source", "play_source",
   "get_night_mode", "set_night_mode", "get_equalizer",
   "set_eq_preset", "set_custom_eq"]

/-- The API-object attribute `handle_power_off_system` invokes
(`__init__.py` line 216). -/
def handle_power_off_system_calls : String := "power_off_system"

/-- The API-object attribute `handle_reboot_system` (`__init__.py`
line 140) and `DevialetMediaPlayer.async_turn_on` (media_player.py
line 530) invoke. -/
def handle_reboot_system_calls : String := "reboot_system"

/-- `API_SYSTEM_POWER_OFF` (const.py line 54). -/
def API_SYSTEM_POWER_OFF : String := "/ipcontrol/v1/systems/current/powerOff"

/-- The fixed endpoints some `DevialetAPI` method POSTs to
(devialet_api.py lines 115-193, endpoint constants from const.py);
`play_source` additionally posts to the parameterized group playback
path `/ipcontrol/v1/groups/current/sources/{source_id}/playback/play`,
which starts with `/ipcontrol/v1/groups` and so never equals
`API_SYSTEM_POWER_OFF` either. -/
def DevialetAPI.postEndpoints : List String :=
  ["/ipcontrol/v1/systems/current/sources/current/soundControl/volume",
   "/ipcontrol/v1/systems/current/sources/current/soundControl/volumeUp",
   "/ipcontrol/v1/systems/current/sources/current/soundControl/volumeDown",
   "/ipcontrol/v1/groups/current/sources/current/playback/play",
   "/ipcontrol/v1/groups/current/sources/current/playback/pause",
   "/ipcontrol/v1/groups/current/sources/current/playback/mute",
   "/ipcontrol/v1/groups/current/sources/current/playback/unmute",
   "/ipcontrol/v1/groups/current/sources/current/playback/next",
   "/ipcontrol/v1/groups/current/sources/current/playback/previous",
   "/ipcontrol/v1/systems/current/settings/audio/nightMode",
   "/ipcontrol/v1/systems/current/settings/audio/equalizer"]

/-- The service-constant names `const.py` defines (lines 14-26). -/
def const_service_names : List String :=
  ["SERVICE_SET_VOLUME", "SERVICE_VOLUME_UP", "SERVICE_VOLUME_DOWN",
   "SERVICE_PLAY", "SERVICE_PAUSE", "SERVICE_MUTE", "SERVICE_UNMUTE",
   "SERVICE_NEXT", "SERVICE_PREVIOUS", "SERVICE_SET_NIGHT_MODE",
   "SERVICE_SET_EQ_PRESET", "SERVICE_SET_CUSTOM_EQ",
   "SERVICE_POWER_OFF_SYSTEM"]

/-- The service-constant names `__init__.py` imports from `.const`
(lines 18-31). -/
def init_imported_service_names : List String :=
  ["SERVICE_SET_VOLUME", "SERVICE_VOLUME_UP", "SERVICE_VOLUME_DOWN",
   "SERVICE_PLAY", "SERVICE_PAUSE", "SERVICE_MUTE", "SERVICE_UNMUTE",
   "SERVICE_NEXT", "SERVICE_PREVIOUS", "SERVICE_SET_NIGHT_MODE",
   "SERVICE_SET_EQ_PRESET", "SERVICE_SET_CUSTOM_EQ",
   "SERVICE_POWER_OFF_SYSTEM", "SERVICE_REBOOT_SYSTEM"]



/-! ## Source list projection (`media_player.py` lines 304-336) -/

/-- One entry of the raw source list: its `type` and `sourceId`, each
read with `source.get(...)` and so optional. -/
structure SourceEntry where
  type? : Option String
  sourceId? : Option String

/-- The fixed lookup table of `_format_source_name` (media_player.py
lines 306-311). -/
def SOURCE_NAME_TABLE : List (String × String) :=
  [("spotifyconnect", "Spotify Connect"), ("airplay2", "AirPlay"),
   ("upnp", "UPnP/DLNA"), ("optical", "Optical")]

/-- Python `str.lower()` (the source types handled here are ASCII). -/
def pyLower (s : String) : String := String.mk (s.data.map Char.toLower)

/-- `DevialetMediaPlayer._format_source_name` (media_player.py lines
304-313): case-insensitive table lookup (`source_type.lower()`),
unknown types passed through unchanged. -/
def format_source_name (source_type : String) : String :=
  ((SOURCE_NAME_TABLE.find? (fun kv => kv.1 == pyLower source_type)).map
    (fun kv => kv.2)).getD source_type

/-- The loop filter of `source_list` (media_player.py line 329):
`if source_type and source_type.lower() not in ["bluetooth", "raat"]`
— a truthy (non-empty) type whose lowercase form is not among the two
excluded wireless protocol types. -/
def keepType (t : String) : Bool :=
  !(t == "")
    && !((["bluetooth", "raat"] : List String).any
          (fun x => x == pyLower t))

/-- Python dict assignment `d[k] = v` on an association list with
unique keys: replace the value in place (keeping the key's position),
or append a new pair. -/
def dictInsert {α : Type} (m : List (String × α)) (k : String) (v : α) :
    List (String × α) :=
  match m with
  | [] => [(k, v)]
  | (a, b) :: rest =>
    if a == k then (a, v) :: rest else (a, b) :: dictInsert rest k v

/-- Python `d.get(k)` on an association list. -/
def assocLookup {α : Type} (m : List (String × α)) (k : String) :
    Option α :=
  (m.find? (fun kv => kv.1 == k)).map (fun kv => kv.2)

/-- One iteration of the `source_list` loop (media_player.py lines
327-333), acting on the pair of the `source_types` dict and the
`_source_mapping` dict: a skipped entry (missing, empty or excluded
type) leaves both unchanged; a kept entry writes its formatted label
into both. -/
def source_list_step
    (st : List (String × Bool) × List (String × Option String))
    (source : SourceEntry) :
    List (String × Bool) × List (String × Option String) :=
  match source.type? with
  | none => st
  | some source_type =>
    if keepType source_type then
      (dictInsert st.1 (format_source_name source_type) true,
       dictInsert st.2 (format_source_name source_type) source.sourceId?)
    else st

/-- The `source_list` projection over the raw source list
(media_player.py lines 324-335): the exposed labels
(`list(source_types.keys())`) and the label→sourceId mapping, built
here from an empty mapping (the entity's `_source_mapping` starts
empty and persists across reads; the projection of one pass is
modelled). -/
def source_list_proj (raw : List SourceEntry) :
    List String × List (String × Option String) :=
  ((raw.foldl source_list_step ([], [])).1.map (fun kv => kv.1),
   (raw.foldl source_list_step ([], [])).2)

/-- Modelled from the spec ("drop entries whose type is in a fixed
exclusion set, format remaining types"): the kept (label, sourceId)
writes of a raw source list, in order. -/
def specKeptPairs (raw : List SourceEntry) :
    List (String × Option String) :=
  raw.filterMap (fun e => e.type?.bind (fun t =>
    if keepType t then some (format_source_name t, e.sourceId?)
    else none))

/-- The kept labels, in write order. -/
def specKeptLabels (raw : List SourceEntry) : List String :=
  (specKeptPairs raw).map (fun kv => kv.1)

/-- Modelled from the spec ("duplicate labels collapse ... since the
mapping is keyed by label"): first-occurrence deduplication with an
explicit seen set. -/
def specDedupFirst (seen : List String) : List String → List String
  | [] => []
  | x :: xs =>
    if seen.any (fun y => y == x) then specDedupFirst seen xs
    else x :: specDedupFirst (seen ++ [x]) xs

/-- Modelled from the spec ("last write wins"): the last sourceId
written at a label, if any. -/
def specLastWrite (label : String) :
    List (String × Option String) → Option (Option String)
  | [] => none
  | (k, v) :: rest =>
    match specLastWrite label rest with
    | some w => some w
    | none => if k == label then some v else none


end Devialet

namespace Devialet

/-! # Theorems -/

/-- `pyStrLt` agrees with Lean's lexicographic order on `List Char`
(and hence with `String`'s order, which compares the `data` lists). -/
theorem pyStrLt_iff (as bs : List Char) : pyStrLt as bs = true ↔ as < bs := by
  induction as generalizing bs with
  | nil =>
    cases bs with
    | nil =>
      simp only [pyStrLt, Bool.false_eq_true, false_iff]
      intro h
      nomatch h
    | cons b bs =>
      simp only [pyStrLt, true_iff]
      exact List.Lex.nil
  | cons a as ih =>
    cases bs with
    | nil =>
      simp only [pyStrLt, Bool.false_eq_true, false_iff]
      intro h
      nomatch h
    | cons b bs =>
      by_cases h1 : a < b
      · simp only [pyStrLt, if_pos h1, true_iff]
        exact List.Lex.rel h1
      · by_cases h2 : b < a
        · simp only [pyStrLt, if_neg h1, if_pos h2, Bool.false_eq_true,
            false_iff]
          intro h
          cases h with
          | cons h => exact absurd h2 (lt_irrefl a)
          | rel h => exact absurd h h1
        · have hab : a = b := le_antisymm (not_lt.mp h2) (not_lt.mp h1)
          subst hab
          simp only [pyStrLt, lt_self_iff_false, if_false, ih bs]
          constructor
          · intro h
            exact List.Lex.cons h
          · intro h
            cases h with
            | cons h => exact h
            | rel h => exact absurd h (lt_irrefl a)

/-- `pyStrGe s t` is exactly "not `s < t`" in Lean's string order,
i.e. lexicographic `t ≤ s`. -/
theorem pyStrGe_iff (s t : String) : pyStrGe s t = true ↔ ¬ s < t := by
  rw [String.lt_iff_toList_lt, ← pyStrLt_iff, pyStrGe]
  cases hb : pyStrLt s.toList t.toList <;> simp [hb]

/-- Claim C1: for every API call made through the client's `get` or
`post`, the four failure classes — transport exception, non-200 HTTP
status, a body that fails to parse as JSON, and a decoded body
containing an `"error"` key — all yield the same absent result
(`none`, and the total Lean functions model that no exception
propagates), and a 200 response with valid JSON and no `"error"` key
yields the decoded mapping. -/
theorem client_failure_classes_collapse :
    DevialetAPI.get .exn = none
    ∧ DevialetAPI.post .exn = none
    ∧ (∀ r : HttpResponse, r.status_code ≠ 200 →
        DevialetAPI.get (.ok r) = none)
    ∧ (∀ r : HttpResponse, r.jsonBody = none →
        DevialetAPI.get (.ok r) = none)
    ∧ (∀ (r : HttpResponse) (data : Obj), r.jsonBody = some data →
        hasKey data "error" = true → DevialetAPI.get (.ok r) = none)
    ∧ (∀ (r : HttpResponse) (data : Obj), r.status_code = 200 →
        r.jsonBody = some data → hasKey data "error" = false →
        DevialetAPI.get (.ok r) = some data)
    ∧ (∀ o : RequestOutcome, DevialetAPI.post o = DevialetAPI.get o) := by
  refine ⟨rfl, rfl, ?_, ?_, ?_, ?_, ?_⟩
  · intro r h
    simp [DevialetAPI.get, handle_response, h]
  · intro r h
    rcases r with ⟨s, b⟩
    cases b with
    | none => simp [DevialetAPI.get, handle_response]
    | some data => simp at h
  · intro r data hb herr
    rcases r with ⟨s, b⟩
    cases hb
    simp [DevialetAPI.get, handle_response, herr]
  · intro r data hs hb herr
    rcases r with ⟨s, b⟩
    cases hb
    simp at hs
    simp [DevialetAPI.get, handle_response, hs, herr]
  · intro o
    cases o with
    | exn => rfl
    | ok r => rfl

/-- Witness for C1 at concrete responses: a 500-status response and a
200 response carrying `{"error": ...}` both yield `none`; a clean 200
response yields its decoded body. -/
theorem client_failure_classes_collapse_witness :
    DevialetAPI.get (.ok ⟨500, some [("volume", JVal.jnum 30)]⟩) = none
    ∧ DevialetAPI.get
        (.ok ⟨200, some [("error", JVal.jobj [("code", JVal.jnum 1)])]⟩)
        = none
    ∧ DevialetAPI.get (.ok ⟨200, some [("volume", JVal.jnum 30)]⟩)
        = some [("volume", JVal.jnum 30)] :=
  ⟨client_failure_classes_collapse.2.2.1 ⟨500, _⟩ (by decide),
   client_failure_classes_collapse.2.2.2.2.1 ⟨200, _⟩ _ rfl (by rfl),
   client_failure_classes_collapse.2.2.2.2.2.1 ⟨200, _⟩ _ rfl rfl (by rfl)⟩

/-- Claim C2: every fetch cycle produces a snapshot with exactly the
seven keys `device_info`, `system_info`, `playback`, `volume`,
`sources`, `night_mode`, `equalizer`, each bound to that endpoint's own
result (present or absent); and when exactly one of the seven results
is absent the snapshot still has all seven keys, 6 present and 1
absent — the cycle is published, not failed. -/
theorem snapshot_has_seven_fields (api : ApiResults) :
    (async_update_data api).map Prod.fst = SNAPSHOT_KEYS
    ∧ (async_update_data api).lookup "device_info" = some api.device_info
    ∧ (async_update_data api).lookup "system_info" = some api.system_info
    ∧ (async_update_data api).lookup "playback" = some api.playback
    ∧ (async_update_data api).lookup "volume" = some api.volume
    ∧ (async_update_data api).lookup "sources" = some api.sources
    ∧ (async_update_data api).lookup "night_mode" = some api.night_mode
    ∧ (async_update_data api).lookup "equalizer" = some api.equalizer
    ∧ (api.fields.countP Option.isNone = 1 →
        (async_update_data api).countP (fun kv => kv.2.isNone) = 1
        ∧ (async_update_data api).countP (fun kv => kv.2.isSome) = 6) := by
  refine ⟨rfl, rfl, rfl, rfl, rfl, rfl, rfl, rfl, ?_⟩
  intro h
  rcases api with ⟨f1, f2, f3, f4, f5, f6, f7⟩
  simp only [ApiResults.fields, async_update_data] at h ⊢
  cases f1 <;> cases f2 <;> cases f3 <;> cases f4 <;> cases f5 <;>
    cases f6 <;> cases f7 <;> simp_all [List.countP, List.countP.go]

/-- Witness for C2: a cycle in which the `volume` endpoint alone came
back absent still yields a seven-key snapshot with 6 present fields and
1 absent field. -/
theorem snapshot_has_seven_fields_witness :
    (async_update_data ⟨some [], some [], some [], none, some [],
        some [], some []⟩).countP (fun kv => kv.2.isNone) = 1
    ∧ (async_update_data ⟨some [], some [], some [], none, some [],
        some [], some []⟩).countP (fun kv => kv.2.isSome) = 6 :=
  (snapshot_has_seven_fields
    ⟨some [], some [], some [], none, some [], some [], some []⟩).2.2.2.2.2.2.2.2
    (by decide)


/-- Claim C6: for every snapshot containing device info, the reboot
capability flag is reported as supported exactly when the firmware
version string (`device_info.release.canonicalVersion`, defaulting to
`"0.0.0"` when missing) is lexicographically ≥ `"2.16.0"` — a plain
string comparison, not a semantic-version comparison: version
`"2.9.0"` is reported as supported although numerically 2.9.0 < 2.16.0. -/
theorem reboot_flag_lexicographic :
    (∀ (d : ApiResults) (device_info : Obj),
      d.device_info = some device_info → device_info ≠ [] →
      (supported_features_reboot (some d) = true ↔
        ¬ firmware_version_string device_info < "2.16.0"))
    ∧ (∀ device_info : Obj, getKey device_info "release" = none →
        firmware_version_string device_info = "0.0.0")
    ∧ (∀ (device_info rel : Obj),
        getKey device_info "release" = some (JVal.jobj rel) →
        getKey rel "canonicalVersion" = none →
        firmware_version_string device_info = "0.0.0")
    ∧ supported_features_reboot (some apiWith29) = true
    ∧ specSemverGe "2.9.0" "2.16.0" = false := by
  refine ⟨?_, ?_, ?_, by decide, by decide⟩
  · intro d device_info hdi hne
    have hempty : device_info.isEmpty = false := by
      cases device_info with
      | nil => exact absurd rfl hne
      | cons a l => rfl
    simp only [supported_features_reboot, hdi, hempty, Bool.false_eq_true,
      if_false, reboot_supported]
    exact pyStrGe_iff _ _
  · intro device_info h
    simp only [firmware_version_string, release_obj, h]
    rfl
  · intro device_info rel h1 h2
    simp only [firmware_version_string, release_obj, h1, h2]

/-- Witness for C6: applied to the concrete snapshot reporting
firmware `"2.9.0"` — the flag is `true` because `"2.9.0"` is not
lexicographically below `"2.16.0"`. -/
theorem reboot_flag_lexicographic_witness :
    supported_features_reboot (some apiWith29) = true ↔
      ¬ firmware_version_string deviceInfo29 < "2.16.0" :=
  reboot_flag_lexicographic.1 apiWith29 deviceInfo29 rfl
    (List.cons_ne_nil _ _)

/-- Claim C10: the mute projection reports muted exactly when
`playback.muteState` equals `"muted"` and reports unknown when absent:
when the `playback` field itself is absent the result is `none`,
whereas a present non-empty playback mapping that lacks the
`muteState` key yields `some false`, not `none`. -/
theorem mute_projection :
    is_volume_muted none = none
    ∧ (∀ d : ApiResults, d.playback = none →
        is_volume_muted (some d) = none)
    ∧ (∀ (d : ApiResults) (playback : Obj), d.playback = some playback →
        playback ≠ [] →
        (is_volume_muted (some d) = some true ↔
          getKey playback "muteState" = some (JVal.jstr "muted")))
    ∧ (∀ (d : ApiResults) (playback : Obj), d.playback = some playback →
        playback ≠ [] → getKey playback "muteState" = none →
        is_volume_muted (some d) = some false) := by
  refine ⟨rfl, ?_, ?_, ?_⟩
  · intro d h
    simp [is_volume_muted, h]
  · intro d playback hp hne
    have hempty : playback.isEmpty = false := by
      cases playback with
      | nil => exact absurd rfl hne
      | cons a l => rfl
    simp only [is_volume_muted, hp, hempty, Bool.false_eq_true, if_false]
    rcases hm : getKey playback "muteState" with _ | v
    · simp
    · cases v with
      | jstr s => simp [beq_iff_eq]
      | jnull => simp
      | jbool b => simp
      | jnum n => simp
      | jobj o => simp
      | jarr l => simp
  · intro d playback hp hne hm
    have hempty : playback.isEmpty = false := by
      cases playback with
      | nil => exact absurd rfl hne
      | cons a l => rfl
    simp [is_volume_muted, hp, hempty, hm]

/-- Witness for C10 at concrete snapshots: `muteState: "muted"` gives
`some true`; a playback mapping without `muteState` gives
`some false`; an absent playback field gives `none`. -/
theorem mute_projection_witness :
    (is_volume_muted
        (some ⟨none, none, some [("muteState", JVal.jstr "muted")], none,
          none, none, none⟩) = some true
      ↔ getKey [("muteState", JVal.jstr "muted")] "muteState"
          = some (JVal.jstr "muted"))
    ∧ is_volume_muted
        (some ⟨none, none, some [("playingState", JVal.jstr "playing")],
          none, none, none, none⟩) = some false
    ∧ is_volume_muted
        (some ⟨none, none, none, none, none, none, none⟩) = none :=
  ⟨mute_projection.2.2.1 _ _ rfl (List.cons_ne_nil _ _),
   mute_projection.2.2.2 _ _ rfl (List.cons_ne_nil _ _) rfl,
   mute_projection.2.1 _ rfl⟩

/-- Counterexample to claim C3 as stated: for the snapshot whose
volume endpoint reported `{"volume": 150}` the exposed fraction is
`150/100 = 3/2`, which exceeds 1 — it is not clamped to `[0.0, 1.0]`
as the claim asserts (the clamped value would be `1`). -/
theorem volume_fraction_not_clamped_cex :
    volume_level (some api150) = some ((3 : ℚ) / 2)
    ∧ (1 : ℚ) < (3 : ℚ) / 2
    ∧ volume_level (some api150)
        ≠ some (min 1 (max 0 ((150 : ℚ) / 100))) := by
  have h1 : volume_level (some api150) = some ((150 : ℚ) / 100) := rfl
  refine ⟨by rw [h1]; norm_num, by norm_num, ?_⟩
  rw [h1]
  intro h
  rw [Option.some_inj] at h
  norm_num at h

/-- Claim C3 as amended: for every integer volume input `v` the
set-volume command posts `{"volume": clamp(v, 0, 100)}` to the volume
endpoint (150 is sent as 100, -5 as 0, in-range values unchanged), and
the volume fraction exposed to the host is unknown when the volume
field is absent (not 0.0) and otherwise equals `volume/100` exactly,
with no clamping of the fraction to `[0.0, 1.0]`. -/
theorem volume_clamp_and_fraction :
    (∀ v : Int, 100 < v →
      set_volume v = (API_VOLUME, [("volume", JVal.jnum 100)]))
    ∧ (∀ v : Int, v < 0 →
        set_volume v = (API_VOLUME, [("volume", JVal.jnum 0)]))
    ∧ (∀ v : Int, 0 ≤ v → v ≤ 100 →
        set_volume v = (API_VOLUME, [("volume", JVal.jnum v)]))
    ∧ volume_level none = none
    ∧ (∀ d : ApiResults, d.volume = none → volume_level (some d) = none)
    ∧ (∀ (d : ApiResults) (volume_data : Obj) (v : Int),
        d.volume = some volume_data →
        getKey volume_data "volume" = some (JVal.jnum v) →
        volume_level (some d) = some ((v : ℚ) / 100)) := by
  refine ⟨?_, ?_, ?_, rfl, ?_, ?_⟩
  · intro v h
    have hc : max 0 (min 100 v) = 100 := by omega
    rw [set_volume, hc]
  · intro v h
    have hc : max 0 (min 100 v) = 0 := by omega
    rw [set_volume, hc]
  · intro v h0 h100
    have hc : max 0 (min 100 v) = v := by omega
    rw [set_volume, hc]
  · intro d h
    simp [volume_level, h]
  · intro d volume_data v hvd hv
    have hne : volume_data.isEmpty = false := by
      cases volume_data with
      | nil => rw [getKey] at hv; exact absurd hv (by simp)
      | cons a l => rfl
    simp only [volume_level, hvd, hne, Bool.false_eq_true, if_false, hv]

/-- Witness for C3 (amended) at concrete inputs: set-volume 150 posts
100, set-volume -5 posts 0, set-volume 57 posts 57, and a snapshot
with volume field 57 exposes fraction `57/100`. -/
theorem volume_clamp_and_fraction_witness :
    set_volume 150 = (API_VOLUME, [("volume", JVal.jnum 100)])
    ∧ set_volume (-5) = (API_VOLUME, [("volume", JVal.jnum 0)])
    ∧ set_volume 57 = (API_VOLUME, [("volume", JVal.jnum 57)])
    ∧ volume_level (some api57) = some ((57 : ℚ) / 100) :=
  ⟨volume_clamp_and_fraction.1 150 (by norm_num),
   volume_clamp_and_fraction.2.1 (-5) (by norm_num),
   volume_clamp_and_fraction.2.2.1 57 (by norm_num) (by norm_num),
   volume_clamp_and_fraction.2.2.2.2.2 api57 _ 57 rfl rfl⟩


/-- Counterexample to claim C7 as stated: the availability flag is
latched, not recomputed.  After a snapshot showing night-mode support
and then a snapshot without it, the flag is still `true` although the
second snapshot's `availableFeatures` lacks night-mode support — it
does not return to unavailable. -/
theorem night_mode_flag_latched_cex :
    update_night_mode_available
      (update_night_mode_available false (some apiNightModeOn))
      (some apiPlain) = true
    ∧ snapshot_shows_night_mode (some apiPlain) = false := ⟨rfl, rfl⟩

/-- Claim C7 as amended: after every new snapshot the night-mode
availability flag is updated monotonically — it equals its previous
value OR-ed with whether that snapshot's
`system_info.availableFeatures` contains night-mode support (so it is
set when the feature appears but never cleared) — and the sound-mode
list is the three EQ preset labels with `"Night Mode"` appended
exactly when the flag holds. -/
theorem night_mode_flag_monotone :
    (∀ (prev : Bool) (data : Option ApiResults),
      update_night_mode_available prev data
        = (prev || snapshot_shows_night_mode data))
    ∧ (∀ (d : ApiResults) (flag : Bool),
        sound_mode_list (some d) flag
          = some (["Flat", "Voice", "Custom"]
              ++ if flag then ["Night Mode"] else []))
    ∧ (∀ flag : Bool, sound_mode_list none flag = none) := by
  refine ⟨?_, ?_, fun _ => rfl⟩
  · intro prev data
    cases h : snapshot_shows_night_mode data <;>
      simp [update_night_mode_available, h]
  · intro d flag
    rfl

/-- Witness for C7 (amended) at concrete inputs: a snapshot showing
the feature raises the flag from `false` to `true`, and with the flag
held the sound-mode list carries the night-mode label. -/
theorem night_mode_flag_monotone_witness :
    update_night_mode_available false (some apiNightModeOn) = true
    ∧ sound_mode_list (some apiNightModeOn) true
        = some ["Flat", "Voice", "Custom", "Night Mode"] :=
  ⟨(night_mode_flag_monotone.1 false (some apiNightModeOn)).trans rfl,
   (night_mode_flag_monotone.2.1 apiNightModeOn true).trans rfl⟩

/-- Claim C4: with coordinator data present, selecting `"Night Mode"`
when night mode is available issues exactly one device command
(night-mode on); selecting `"Flat"` when night mode is available
issues exactly two commands in order (night-mode off, then EQ-preset
flat); selecting `"Flat"` when night mode is unavailable issues only
the EQ-preset command; and selecting a label that is neither the
night-mode label nor a formatted EQ preset label issues no device
command at all. -/
theorem select_sound_mode_commands :
    deviceCalls (async_select_sound_mode true true "Night Mode")
      = [.setNightMode true]
    ∧ deviceCalls (async_select_sound_mode true true "Flat")
      = [.setNightMode false, .setEqPreset "flat"]
    ∧ deviceCalls (async_select_sound_mode true false "Flat")
      = [.setEqPreset "flat"]
    ∧ (∀ (night_mode_available : Bool) (label : String),
        label ≠ "Night Mode" → label ∉ ["Flat", "Voice", "Custom"] →
        deviceCalls
          (async_select_sound_mode true night_mode_available label)
          = []) := by
  refine ⟨rfl, rfl, rfl, ?_⟩
  intro night_mode_available label h1 h2
  simp only [List.mem_cons, List.not_mem_nil, or_false, not_or] at h2
  obtain ⟨hf, hv, hc⟩ := h2
  have hb : (label == "Night Mode") = false := by
    simp [beq_iff_eq]
    exact h1
  have hcontains :
      (SOUND_MODES.map format_sound_mode).contains label = false := by
    simp [SOUND_MODES, format_sound_mode, SOUND_MODE_MAPPING,
      List.contains, hf, hv, hc]
  simp only [async_select_sound_mode, hb, hcontains, Bool.and_false,
    Bool.not_true, Bool.false_eq_true, if_false, List.nil_append]
  rfl

/-- Witness for C4 at a concrete unrecognized label: selecting
`"Bass"` issues no device command. -/
theorem select_sound_mode_commands_witness :
    deviceCalls (async_select_sound_mode true true "Bass") = [] :=
  select_sound_mode_commands.2.2.2 true "Bass" (by decide) (by decide)

/-- Counterexample to claim C8 as stated: selecting the night-mode
sound mode (data present, night mode available) issues the
night-mode-on command and returns without requesting a snapshot
refresh. -/
theorem night_mode_selection_skips_refresh_cex :
    run_action (.select_sound_mode true true "Night Mode")
      = [.api (.setNightMode true)]
    ∧ Event.refresh ∉ run_action (.select_sound_mode true true "Night Mode") :=
  ⟨rfl, by decide⟩

/-- Claim C8 as amended: every user/command action that issues at
least one device API call requests an out-of-cycle snapshot refresh
before completing — except the night-mode sound-mode selection, which
returns immediately after the night-mode-on command without a
refresh.  (Paths issuing no call, such as an unknown source label or
missing coordinator data, return early without a refresh as well; the
reboot action is excluded as its client call does not exist — see the
power-off/reboot dispatch theorem.) -/
theorem actions_request_refresh (a : Action)
    (h1 : is_night_mode_selection a = false)
    (h2 : deviceCalls (run_action a) ≠ []) :
    Event.refresh ∈ run_action a := by
  cases a with
  | select_source known source_id =>
    cases known with
    | false => simp [run_action, deviceCalls] at h2
    | true => simp [run_action]
  | volume_up => simp [run_action]
  | volume_down => simp [run_action]
  | set_volume_level volume => simp [run_action]
  | mute_volume m => simp [run_action]
  | media_play => simp [run_action]
  | media_pause => simp [run_action]
  | media_previous_track => simp [run_action]
  | media_next_track => simp [run_action]
  | media_stop => simp [run_action]
  | select_sound_mode hasData night_mode_available sound_mode =>
    cases hasData with
    | false => simp [run_action, async_select_sound_mode, deviceCalls] at h2
    | true =>
      have hcond :
          (night_mode_available && (sound_mode == "Night Mode")) = false := by
        simpa [is_night_mode_selection, Bool.and_assoc] using h1
      simp [run_action, async_select_sound_mode, hcond]

/-- Witness for C8 (amended) at a concrete action: the mute action
issues its call and does request a refresh. -/
theorem actions_request_refresh_witness :
    Event.refresh ∈ run_action (Action.mute_volume true) :=
  actions_request_refresh (.mute_volume true) rfl (by decide)

/-- Claim C9, evaluated against the code (the claim states the intent;
the code cannot dispatch it): the endpoint constant
`API_SYSTEM_POWER_OFF` is `/ipcontrol/v1/systems/current/powerOff` as
claimed, but the handler `handle_power_off_system` invokes the client
attribute `power_off_system`, which is not among the methods
`DevialetAPI` defines (an `AttributeError` at dispatch), no client
method posts to that endpoint, and the reboot command is likewise not
dispatchable: `reboot_system` is not a client method and
`SERVICE_REBOOT_SYSTEM` is imported by `__init__.py` but not defined
in `const.py`. -/
theorem power_off_not_dispatchable :
    API_SYSTEM_POWER_OFF = "/ipcontrol/v1/systems/current/powerOff"
    ∧ handle_power_off_system_calls ∉ DevialetAPI.methods
    ∧ handle_reboot_system_calls ∉ DevialetAPI.methods
    ∧ API_SYSTEM_POWER_OFF ∉ DevialetAPI.postEndpoints
    ∧ "SERVICE_REBOOT_SYSTEM" ∈ init_imported_service_names
    ∧ "SERVICE_REBOOT_SYSTEM" ∉ const_service_names :=
  ⟨rfl, by decide, by decide, by decide, by decide, by decide⟩


/-- `assocLookup` unfolded one pair at a time. -/
theorem assocLookup_cons {α : Type} (a : String) (b : α)
    (rest : List (String × α)) (label : String) :
    assocLookup ((a, b) :: rest) label
      = if a == label then some b else assocLookup rest label := by
  simp only [assocLookup, List.find?]
  by_cases h : a == label <;> simp [h]

/-- `List.any` of a projection over the mapped list. -/
theorem any_map_fst {α β : Type} (l : List (α × β)) (p : α → Bool) :
    (l.map (fun kv => kv.1)).any p = l.any (fun kv => p kv.1) := by
  induction l with
  | nil => rfl
  | cons kv rest ih => simp [ih]

/-- Looking a label up after a dict assignment: the assigned key now
maps to the new value; other keys are unaffected. -/
theorem assocLookup_dictInsert {α : Type} (m : List (String × α))
    (k : String) (v : α) (label : String) :
    assocLookup (dictInsert m k v) label
      = if k == label then some v else assocLookup m label := by
  induction m with
  | nil =>
    by_cases h : k == label <;> simp [dictInsert, assocLookup, h]
  | cons kv rest ih =>
    obtain ⟨a, b⟩ := kv
    by_cases hak : a == k
    · have hak' : a = k := by simpa using hak
      subst hak'
      rw [show dictInsert ((a, b) :: rest) a v = (a, v) :: rest from by
        simp [dictInsert]]
      rw [assocLookup_cons, assocLookup_cons]
      by_cases hal : a == label <;> simp [hal]
    · have hakf : (a == k) = false := by
        simpa using hak
      rw [show dictInsert ((a, b) :: rest) k v
            = (a, b) :: dictInsert rest k v from by
          simp [dictInsert, hakf]]
      rw [assocLookup_cons, assocLookup_cons, ih]
      by_cases hal : a == label
      · have hal' : a = label := by simpa using hal
        have hkl : (k == label) = false := by
          have hne : ¬ k = label := fun h => (by simpa using hak : ¬ a = k)
            (by rw [hal', h])
          simpa using hne
        simp [hal, hkl]
      · have half : (a == label) = false := by simpa using hal
        simp [half]

/-- A dict assignment leaves the key list unchanged when the key is
already present and appends it otherwise. -/
theorem keys_dictInsert {α : Type} (m : List (String × α)) (k : String)
    (v : α) :
    (dictInsert m k v).map (fun kv => kv.1)
      = if m.any (fun kv => kv.1 == k) then m.map (fun kv => kv.1)
        else m.map (fun kv => kv.1) ++ [k] := by
  induction m with
  | nil => simp [dictInsert]
  | cons kv rest ih =>
    obtain ⟨a, b⟩ := kv
    by_cases hak : a == k
    · simp [dictInsert, hak]
    · by_cases hr : rest.any (fun kv => kv.1 == k) <;>
        simp [dictInsert, hak, hr, ih]

/-- The mapping built by folding the source-list loop: a label looks
up to the last kept write in the raw list, falling back to the initial
mapping. -/
theorem mapping_foldl (raw : List SourceEntry) :
    ∀ (st : List (String × Bool) × List (String × Option String))
      (label : String),
      assocLookup (raw.foldl source_list_step st).2 label
        = match specLastWrite label (specKeptPairs raw) with
          | some w => some w
          | none => assocLookup st.2 label := by
  induction raw with
  | nil => intro st label; simp [specKeptPairs, specLastWrite]
  | cons e rest ih =>
    intro st label
    rcases he : e.type? with _ | t
    · rw [List.foldl_cons,
        show source_list_step st e = st by simp [source_list_step, he]]
      rw [ih st label]
      simp [specKeptPairs, List.filterMap_cons, he]
    · by_cases hk : keepType t
      · have hstep : source_list_step st e
            = (dictInsert st.1 (format_source_name t) true,
               dictInsert st.2 (format_source_name t) e.sourceId?) := by
          simp [source_list_step, he, hk]
        rw [List.foldl_cons, hstep, ih _ label]
        have hkept : specKeptPairs (e :: rest)
            = (format_source_name t, e.sourceId?) :: specKeptPairs rest := by
          simp [specKeptPairs, List.filterMap_cons, he, hk]
        rw [hkept]
        rcases hw : specLastWrite label (specKeptPairs rest) with _ | w
        · simp only [specLastWrite, hw, assocLookup_dictInsert]
          by_cases hfl : format_source_name t == label <;> simp [hfl]
        · simp [specLastWrite, hw]
      · rw [List.foldl_cons,
          show source_list_step st e = st by simp [source_list_step, he, hk]]
        rw [ih st label]
        simp [specKeptPairs, List.filterMap_cons, he, hk]

/-- The exposed labels from folding the source-list loop: the initial
keys followed by the kept labels deduplicated to first occurrences. -/
theorem labels_foldl (raw : List SourceEntry) :
    ∀ st : List (String × Bool) × List (String × Option String),
      (raw.foldl source_list_step st).1.map (fun kv => kv.1)
        = st.1.map (fun kv => kv.1)
          ++ specDedupFirst (st.1.map (fun kv => kv.1))
              (specKeptLabels raw) := by
  induction raw with
  | nil => intro st; simp [specKeptLabels, specKeptPairs, specDedupFirst]
  | cons e rest ih =>
    intro st
    rcases he : e.type? with _ | t
    · rw [List.foldl_cons,
        show source_list_step st e = st by simp [source_list_step, he]]
      rw [ih st]
      simp [specKeptLabels, specKeptPairs, List.filterMap_cons, he]
    · by_cases hk : keepType t
      · have hstep : source_list_step st e
            = (dictInsert st.1 (format_source_name t) true,
               dictInsert st.2 (format_source_name t) e.sourceId?) := by
          simp [source_list_step, he, hk]
        have hkept : specKeptLabels (e :: rest)
            = format_source_name t :: specKeptLabels rest := by
          simp [specKeptLabels, specKeptPairs, List.filterMap_cons, he, hk]
        rw [List.foldl_cons, hstep, ih _, hkept]
        have hmem : (st.1.map (fun kv => kv.1)).any
              (fun y => y == format_source_name t)
            = st.1.any (fun kv => kv.1 == format_source_name t) :=
          any_map_fst st.1 (fun y => y == format_source_name t)
        by_cases hp : st.1.any (fun kv => kv.1 == format_source_name t)
        · simp only [keys_dictInsert, hp, if_true, specDedupFirst, hmem]
        · simp only [keys_dictInsert, hp, Bool.false_eq_true, if_false,
            specDedupFirst, hmem, List.append_assoc, List.singleton_append]
      · rw [List.foldl_cons,
          show source_list_step st e = st by simp [source_list_step, he, hk]]
        rw [ih st]
        simp [specKeptLabels, specKeptPairs, List.filterMap_cons, he, hk]

/-- Claim C5: the source-list projection drops every entry whose type
is case-insensitively `bluetooth` or `raat`, formats the remaining
types through the fixed case-insensitive table (unknown types passed
through unchanged), exposes each kept label once (first occurrence
order), and builds the label→sourceId mapping with last write winning;
raw types `[spotifyconnect, bluetooth]` yield exactly
`["Spotify Connect"]`. -/
theorem source_list_projection :
    (∀ raw : List SourceEntry,
      (source_list_proj raw).1 = specDedupFirst [] (specKeptLabels raw))
    ∧ (∀ (raw : List SourceEntry) (label : String),
        assocLookup (source_list_proj raw).2 label
          = specLastWrite label (specKeptPairs raw))
    ∧ (∀ (e : SourceEntry) (t : String), e.type? = some t →
        pyLower t = "bluetooth" ∨ pyLower t = "raat" →
        ∀ st, source_list_step st e = st)
    ∧ format_source_name "spotifyconnect" = "Spotify Connect"
    ∧ format_source_name "AirPlay2" = "AirPlay"
    ∧ format_source_name "upnp" = "UPnP/DLNA"
    ∧ format_source_name "Optical" = "Optical"
    ∧ (∀ t : String,
        SOURCE_NAME_TABLE.find? (fun kv => kv.1 == pyLower t) = none →
        format_source_name t = t)
    ∧ source_list_proj
        [⟨some "spotifyconnect", some "sid1"⟩,
         ⟨some "bluetooth", some "sid2"⟩]
        = (["Spotify Connect"], [("Spotify Connect", some "sid1")]) := by
  refine ⟨?_, ?_, ?_, by decide, by decide, by decide, by decide, ?_, by decide⟩
  · intro raw
    have h := labels_foldl raw ([], [])
    simpa [source_list_proj] using h
  · intro raw label
    have h := mapping_foldl raw ([], []) label
    rw [source_list_proj] at *
    rw [h]
    rcases hw : specLastWrite label (specKeptPairs raw) with _ | w <;>
      simp [assocLookup]
  · intro e t ht hex st
    have hmem : ((["bluetooth", "raat"] : List String).any
        (fun x => x == pyLower t)) = true := by
      rcases hex with h | h <;> simp [h]
    simp [source_list_step, ht, keepType, hmem]
  · intro t h
    simp [format_source_name, h]

/-- Witness for C5 at concrete entries: an entry typed `Bluetooth`
(case-insensitively excluded) contributes nothing to either dict, and
the unknown type `alexa` passes through formatting unchanged. -/
theorem source_list_projection_witness :
    source_list_step ([], []) ⟨some "Bluetooth", some "sid2"⟩ = ([], [])
    ∧ format_source_name "alexa" = "alexa" :=
  ⟨source_list_projection.2.2.1 ⟨some "Bluetooth", some "sid2"⟩
      "Bluetooth" rfl (Or.inl (by decide)) ([], []),
   source_list_projection.2.2.2.2.2.2.2.1 "alexa" (by decide)⟩

end Devialet
